import Mathlib

/-!
Verification of the fastapi-jwt-auth authentication core.

Shallow embedding of `src/app/config.py`, `src/app/auth.py`,
`src/app/middleware.py` and `src/app/routes.py`.

Modelling conventions:
* Times (`time.time()`, `datetime.utcnow()`) are modelled as integral Unix
  seconds (`Int`); `timedelta(minutes=m)` is `60 * m` seconds and
  `timedelta(days=d)` is `86400 * d` seconds.
* A signed JWT is modelled as a record of its payload together with the key
  and algorithm it was signed with; signature verification succeeds exactly
  when the verifying key and algorithm match the signing ones, which is the
  functional content of HMAC verification.
* Python exceptions are modelled with `Except`: a `.error` value is a raised
  exception, `.ok` a normal return.
-/

set_option autoImplicit false

namespace FastapiJwtAuth

/-! ## Configuration (`src/app/config.py`)

`SecurityConfig` keeps the fields that `_validate` and the token/rate-limit
code read; `allowed_origins` and `database_url` are not referenced by any
modelled operation and are omitted. Python `int` fields are `Int`. -/

structure SecurityConfig where
  jwt_secret : String
  jwt_refresh_secret : String
  access_token_expire_minutes : Int
  refresh_token_expire_days : Int
  max_request_body_size : Int
  rate_limit_requests : Int
  rate_limit_window : Int
deriving Repr, DecidableEq

/-- `SecurityConfig._constant_time_compare`: `hmac.compare_digest` on the
UTF-8 encodings of two strings returns exactly whether they are equal
(the constant-time execution is a timing property with no functional
content). -/
def _constant_time_compare (a b : String) : Bool :=
  a == b

/-- `SecurityConfig._validate` (config.py lines 23-40), translated check by
check and in order.  Each Python `if` either raises (terminating the call)
or falls through to the next check, so the body is a single if-else chain.
The third check mirrors the source's nesting: the `raise` for equal secrets
sits under `if not _constant_time_compare(...)`, so it fires only when
`not _constant_time_compare(a, b)` and `a == b` hold together. -/
def _validate (c : SecurityConfig) : Except String Unit :=
  if c.jwt_secret.isEmpty ∨ c.jwt_secret.length < 32 then
    .error "JWT_SECRET_KEY must be set and at least 32 characters"
  else if c.jwt_refresh_secret.isEmpty ∨ c.jwt_refresh_secret.length < 32 then
    .error "JWT_REFRESH_SECRET_KEY must be set and at least 32 characters"
  else if ¬ (_constant_time_compare c.jwt_secret c.jwt_refresh_secret) = true
      ∧ (c.jwt_secret == c.jwt_refresh_secret) = true then
    .error "JWT_SECRET_KEY and JWT_REFRESH_SECRET_KEY must be different"
  else if c.access_token_expire_minutes < 1 ∨ 60 < c.access_token_expire_minutes then
    .error "ACCESS_TOKEN_EXPIRE_MINUTES must be between 1 and 60"
  else if c.refresh_token_expire_days < 1 ∨ 30 < c.refresh_token_expire_days then
    .error "REFRESH_TOKEN_EXPIRE_DAYS must be between 1 and 30"
  else if 1048576 < c.max_request_body_size then
    .error "MAX_REQUEST_BODY_SIZE must not exceed 1MB"
  else if c.rate_limit_requests < 1 ∨ 100 < c.rate_limit_requests then
    .error "RATE_LIMIT_REQUESTS must be between 1 and 100"
  else if c.rate_limit_window < 1 ∨ 3600 < c.rate_limit_window then
    .error "RATE_LIMIT_WINDOW must be between 1 and 3600 seconds"
  else
    .ok ()

/-! ## Token codec (`src/app/auth.py`, `TokenManager`) -/

/-- The JWT payload built by `create_access_token` / `create_refresh_token`:
claims `sub`, `email`, `type` (field `tokenType` here, `type` being reserved
in Lean), `iat`, `exp`, `nbf`, with the three time claims in Unix seconds. -/
structure Claims where
  sub : String
  email : String
  tokenType : String
  iat : Int
  exp : Int
  nbf : Int
deriving Repr, DecidableEq

/-- A signed token: the payload plus the key and algorithm that produced the
signature.  `jwt.encode(payload, key, algorithm=alg)` yields
`⟨payload, key, alg⟩`. -/
structure Token where
  claims : Claims
  key : String
  alg : String
deriving Repr, DecidableEq

/-- The failure modes of `jwt.decode` that auth.py distinguishes:
`jwt.ExpiredSignatureError` and every other `jwt.InvalidTokenError`
(bad signature, disallowed algorithm, immature `iat`/`nbf`). -/
inductive JwtError where
  | expiredSignature
  | invalidToken
deriving Repr, DecidableEq

/-- `jwt.decode(token, key, algorithms, options=require and verify exp iat
nbf, leeway)` for tokens carrying all three time claims.  PyJWT order: the
signature and algorithm are checked first (failures are
`InvalidTokenError`s), then `iat`, then `nbf` (failures are
`ImmatureSignatureError ⊆ InvalidTokenError`), then `exp`
(`ExpiredSignatureError`).  With leeway `l`: `iat` fails iff `iat > now + l`,
`nbf` fails iff `nbf > now + l`, `exp` fails iff `exp < now - l`. -/
def jwtDecode (t : Token) (key : String) (algorithms : List String)
    (now leeway : Int) : Except JwtError Claims :=
  if ¬ (algorithms.contains t.alg) then .error .invalidToken
  else if t.key ≠ key then .error .invalidToken
  else if now + leeway < t.claims.iat then .error .invalidToken
  else if now + leeway < t.claims.nbf then .error .invalidToken
  else if t.claims.exp < now - leeway then .error .expiredSignature
  else .ok t.claims

/-- `TokenManager.ALGORITHM`. -/
def ALGORITHM : String := "HS256"

/-- `TokenManager.ALLOWED_ALGORITHMS`. -/
def ALLOWED_ALGORITHMS : List String := ["HS256"]

/-- `TokenManager.CLOCK_SKEW_SECONDS`. -/
def CLOCK_SKEW_SECONDS : Int := 10

/-- `TokenManager.create_access_token(user_id, email)` at time `now`. -/
def create_access_token (cfg : SecurityConfig) (user_id : Int) (email : String)
    (now : Int) : Token :=
  { claims := { sub := toString user_id
                email := email
                tokenType := "access"
                iat := now
                exp := now + 60 * cfg.access_token_expire_minutes
                nbf := now }
    key := cfg.jwt_secret
    alg := ALGORITHM }

/-- `TokenManager.create_refresh_token(user_id, email)` at time `now`. -/
def create_refresh_token (cfg : SecurityConfig) (user_id : Int) (email : String)
    (now : Int) : Token :=
  { claims := { sub := toString user_id
                email := email
                tokenType := "refresh"
                iat := now
                exp := now + 86400 * cfg.refresh_token_expire_days
                nbf := now }
    key := cfg.jwt_refresh_secret
    alg := ALGORITHM }

/-! ## Rate limiter (`src/app/middleware.py`, `RateLimiter`)

`self.clients` is a Python dict from client id to a list of request
timestamps; it is modelled as an association list with unique keys
(`lookupClient` is dict read, `setClient` is dict write).  `time.time()`
values are `Int` seconds.  The lock makes each `is_allowed` call atomic, so
the concurrent behaviour is the sequential function iterated over calls. -/

/-- Dict read: the value stored for `cid`, if any. -/
def lookupClient (cs : List (String × List Int)) (cid : String) :
    Option (List Int) :=
  match cs with
  | [] => none
  | (k, v) :: rest => if k = cid then some v else lookupClient rest cid

/-- Dict write: replace the binding of `cid`, or append it if absent. -/
def setClient (cs : List (String × List Int)) (cid : String)
    (tss : List Int) : List (String × List Int) :=
  match cs with
  | [] => [(cid, tss)]
  | (k, v) :: rest =>
    if k = cid then (cid, tss) :: rest else (k, v) :: setClient rest cid tss

/-- The loop body of `RateLimiter._cleanup_if_needed` (middleware.py lines
41-49): prune each client's timestamps to those strictly newer than
`cutoff` and drop clients left with no timestamps. -/
def cleanupClients (cutoff : Int) :
    List (String × List Int) → List (String × List Int)
  | [] => []
  | (k, tss) :: rest =>
    let active := tss.filter fun ts => cutoff < ts
    if active.isEmpty then cleanupClients cutoff rest
    else (k, active) :: cleanupClients cutoff rest

/-- The mutable state of a `RateLimiter` instance. -/
structure RateLimiter where
  max_requests : Nat
  window_seconds : Int
  clients : List (String × List Int)
  last_cleanup : Int
deriving Repr, DecidableEq

/-- `RateLimiter.__init__(max_requests, window_seconds)` executed at time
`now` (`last_cleanup = time.time()`, `clients` empty). -/
def mkRateLimiter (maxRequests : Nat) (window : Int) (now : Int) : RateLimiter :=
  { max_requests := maxRequests
    window_seconds := window
    clients := []
    last_cleanup := now }

/-- `RateLimiter._cleanup_if_needed(current_time)` (middleware.py lines
38-50): a no-op unless more than 300 seconds passed since `last_cleanup`;
otherwise sweep all clients with cutoff `current_time - window_seconds` and
record the sweep time. -/
def _cleanup_if_needed (rl : RateLimiter) (current_time : Int) : RateLimiter :=
  if 300 < current_time - rl.last_cleanup then
    { rl with
      clients := cleanupClients (current_time - rl.window_seconds) rl.clients
      last_cleanup := current_time }
  else rl

/-- The body of `RateLimiter.is_allowed` after the opportunistic sweep
(middleware.py lines 24-36): new clients are admitted with a fresh
one-element list; known clients have their list pruned to the window, are
rejected without recording when the pruned count reaches `max_requests`,
and otherwise record the current timestamp and are admitted. -/
def is_allowed_core (rl : RateLimiter) (client_id : String)
    (current_time : Int) : Bool × RateLimiter :=
  match lookupClient rl.clients client_id with
  | none =>
    (true, { rl with clients := setClient rl.clients client_id [current_time] })
  | some tss =>
    let timestamps := tss.filter fun ts => current_time - ts < rl.window_seconds
    if rl.max_requests ≤ timestamps.length then
      (false, { rl with clients := setClient rl.clients client_id timestamps })
    else
      (true, { rl with
        clients := setClient rl.clients client_id (timestamps ++ [current_time]) })

/-- `RateLimiter.is_allowed(client_id)` called at time `current_time`:
sweep if due, then run the admission body.  Returns the decision and the
updated limiter state. -/
def is_allowed (rl : RateLimiter) (client_id : String) (current_time : Int) :
    Bool × RateLimiter :=
  is_allowed_core (_cleanup_if_needed rl current_time) client_id current_time

/-- Iterate `is_allowed` over a list of (client, time) calls, discarding the
decisions: the limiter state after a call sequence. -/
def runCalls (rl : RateLimiter) : List (String × Int) → RateLimiter
  | [] => rl
  | (cid, t) :: rest => runCalls (is_allowed rl cid t).2 rest

/-- The per-client storage bound: no tracked client holds more than
`max_requests` timestamps. -/
def ClientInvariant (rl : RateLimiter) : Prop :=
  ∀ cid tss, (cid, tss) ∈ rl.clients → tss.length ≤ rl.max_requests

/-- An `HTTPException`: status code and detail message. -/
structure HttpError where
  status_code : Nat
  detail : String
deriving Repr, DecidableEq

/-- `TokenManager.verify_access_token` at time `now`.  A decoded payload of
the wrong type raises `ValueError`, which the handlers catch under the
generic `except Exception` branch ("Authentication failed"); decode errors
map to "Token expired" / "Invalid token". -/
def verify_access_token (cfg : SecurityConfig) (t : Token) (now : Int) :
    Except HttpError Claims :=
  match jwtDecode t cfg.jwt_secret ALLOWED_ALGORITHMS now CLOCK_SKEW_SECONDS with
  | .ok payload =>
      if payload.tokenType ≠ "access" then .error ⟨401, "Authentication failed"⟩
      else .ok payload
  | .error .expiredSignature => .error ⟨401, "Token expired"⟩
  | .error .invalidToken => .error ⟨401, "Invalid token"⟩

/-- `TokenManager.verify_refresh_token` at time `now`. -/
def verify_refresh_token (cfg : SecurityConfig) (t : Token) (now : Int) :
    Except HttpError Claims :=
  match jwtDecode t cfg.jwt_refresh_secret ALLOWED_ALGORITHMS now CLOCK_SKEW_SECONDS with
  | .ok payload =>
      if payload.tokenType ≠ "refresh" then .error ⟨401, "Authentication failed"⟩
      else .ok payload
  | .error .expiredSignature => .error ⟨401, "Token expired"⟩
  | .error .invalidToken => .error ⟨401, "Invalid token"⟩

/-! ## Password hashing (`src/app/auth.py`, `PasswordHasher`)

`bcrypt` is an external library; its functional contract is modelled: a
stored hash must parse as a bcrypt hash before it can be compared, and the
comparison itself is abstracted as an oracle parameter (its value is
irrelevant to every claim below). -/

/-- Modelled from the external bcrypt library: a well-formed bcrypt hash
string is 60 characters long and begins with a "$2b$" version prefix (the
format `bcrypt.gensalt()` produces).  Stated over the character list of
the string. -/
def isWellFormedBcryptHash (s : String) : Bool :=
  s.data.length == 60 && s.data.take 4 == "$2b$".data

/-- Modelled from the external bcrypt library: `bcrypt.checkpw(password,
hashed)` first parses the stored hash and raises `ValueError("Invalid
salt")` when it is not a well-formed bcrypt hash; on a well-formed hash it
returns the boolean outcome of recomputing and comparing, abstracted here
as the oracle `matchesPw`. -/
def bcrypt_checkpw (matchesPw : String → String → Bool)
    (password hashed : String) : Except String Bool :=
  if isWellFormedBcryptHash hashed then .ok (matchesPw password hashed)
  else .error "Invalid salt"

/-- `PasswordHasher.verify_password` (auth.py lines 19-21): a direct call
to `bcrypt.checkpw` with no exception handling, so a `ValueError` from the
library propagates to the caller. -/
def verify_password (matchesPw : String → String → Bool)
    (password hashed : String) : Except String Bool :=
  bcrypt_checkpw matchesPw password hashed

/-! ## Persistence and route handlers (`src/app/database.py`,
`src/app/routes.py`)

The `users` table is a list of rows; SQLAlchemy's session is modelled with
an explicit committed store plus a pending (added but uncommitted) list:
`db.add` appends to pending, `db.commit` moves pending into the committed
store, `db.rollback` discards pending and leaves the committed store
untouched. -/

/-- A row of the `users` table (the fields the handlers read). -/
structure UserRow where
  id : Int
  email : String
  hashed_password : String
deriving Repr, DecidableEq

/-- `db.query(User).filter(User.email == email).first()`. -/
def findByEmail (users : List UserRow) (email : String) : Option UserRow :=
  match users with
  | [] => none
  | u :: rest => if u.email = email then some u else findByEmail rest email

/-- A SQLAlchemy session over the users table. -/
structure Db where
  committed : List UserRow
  pending : List UserRow
deriving Repr, DecidableEq

/-- The `register` handler (routes.py lines 30-61) with the failure of the
post-commit steps (`db.refresh` / token issuance) abstracted as the flag
`postCommitFails`; `hashFn` abstracts `PasswordHasher.hash_password` and
`nextId` the autoincrement id.  The source order is: duplicate check, hash,
`db.add`, `db.commit`, then token issuance; `except Exception` calls
`db.rollback()` (which discards only uncommitted changes) and raises a 500.
Returns the response and the final session state. -/
def register (hashFn : String → String) (cfg : SecurityConfig) (db : Db)
    (email password : String) (nextId : Int) (now : Int)
    (postCommitFails : Bool) : Except HttpError (Token × Token) × Db :=
  match findByEmail db.committed email with
  | some _ => (.error ⟨409, "Registration failed"⟩, db)
  | none =>
    let newUser : UserRow := ⟨nextId, email, hashFn password⟩
    let added : Db := { db with pending := db.pending ++ [newUser] }
    let committedDb : Db := { committed := added.committed ++ added.pending
                              pending := [] }
    if postCommitFails then
      (.error ⟨500, "Registration failed"⟩, { committedDb with pending := [] })
    else
      (.ok (create_access_token cfg nextId email now,
            create_refresh_token cfg nextId email now), committedDb)

/-- The `login` handler (routes.py lines 64-84).  A missing user and a
failed password check share one branch (`if not user or not
verify_password(...)`) raising 401 "Invalid credentials"; an exception
escaping `verify_password` is caught by `except Exception` as a 500. -/
def login (matchesPw : String → String → Bool) (cfg : SecurityConfig)
    (users : List UserRow) (email password : String) (now : Int) :
    Except HttpError (Token × Token) :=
  match findByEmail users email with
  | none => .error ⟨401, "Invalid credentials"⟩
  | some user =>
    match bcrypt_checkpw matchesPw password user.hashed_password with
    | .error _ => .error ⟨500, "Login failed"⟩
    | .ok b =>
      if ¬ b then .error ⟨401, "Invalid credentials"⟩
      else .ok (create_access_token cfg user.id user.email now,
                create_refresh_token cfg user.id user.email now)

/-- A sample valid configuration (distinct 32+-character secrets, all
fields in their documented ranges), used to instantiate universally
quantified theorems at a concrete input. -/
def cfgA : SecurityConfig :=
  { jwt_secret := "access-secret-0123456789abcdefghijklmn"
    jwt_refresh_secret := "refresh-secret-0123456789abcdefghijk"
    access_token_expire_minutes := 15
    refresh_token_expire_days := 7
    max_request_body_size := 10240
    rate_limit_requests := 10
    rate_limit_window := 60 }

/-! ## Helper lemmas about the token codec -/

/-- `jwt.decode` succeeds when the algorithm is allowed, the key matches and
all three time claims are within leeway of `now`. -/
lemma jwtDecode_ok (t : Token) (key : String) (algs : List String)
    (now leeway : Int)
    (halg : algs.contains t.alg = true) (hkey : t.key = key)
    (hiat : t.claims.iat ≤ now + leeway) (hnbf : t.claims.nbf ≤ now + leeway)
    (hexp : now - leeway ≤ t.claims.exp) :
    jwtDecode t key algs now leeway = .ok t.claims := by
  rw [jwtDecode, if_neg (by simpa using halg), if_neg (by simp [hkey]),
    if_neg (by omega), if_neg (by omega), if_neg (by omega)]

/-- Inversion: everything that must have held for `jwt.decode` to succeed. -/
lemma jwtDecode_ok_inversion (t : Token) (key : String) (algs : List String)
    (now leeway : Int) (cl : Claims)
    (h : jwtDecode t key algs now leeway = .ok cl) :
    cl = t.claims ∧ algs.contains t.alg = true ∧ t.key = key ∧
      t.claims.iat ≤ now + leeway ∧ t.claims.nbf ≤ now + leeway ∧
      now - leeway ≤ t.claims.exp := by
  rw [jwtDecode] at h
  split_ifs at h with h1 h2 h3 h4 h5
  all_goals cases h
  push_neg at h2
  exact ⟨rfl, h1, h2, by omega, by omega, by omega⟩

/-- Inversion: everything that must have held for `verify_access_token` to
return a payload. -/
lemma verify_access_token_ok_inversion (cfg : SecurityConfig) (t : Token)
    (now : Int) (cl : Claims)
    (h : verify_access_token cfg t now = .ok cl) :
    cl = t.claims ∧ t.claims.tokenType = "access" ∧ t.key = cfg.jwt_secret ∧
      ALLOWED_ALGORITHMS.contains t.alg = true ∧
      t.claims.iat ≤ now + CLOCK_SKEW_SECONDS ∧
      t.claims.nbf ≤ now + CLOCK_SKEW_SECONDS ∧
      now - CLOCK_SKEW_SECONDS ≤ t.claims.exp := by
  rw [verify_access_token] at h
  cases hd : jwtDecode t cfg.jwt_secret ALLOWED_ALGORITHMS now CLOCK_SKEW_SECONDS with
  | ok payload =>
    rw [hd] at h
    simp only [] at h
    split_ifs at h with hty
    cases h
    obtain ⟨hcl, halg, hkey, hiat, hnbf, hexp⟩ :=
      jwtDecode_ok_inversion _ _ _ _ _ _ hd
    subst hcl
    push_neg at hty
    exact ⟨rfl, hty, hkey, halg, hiat, hnbf, hexp⟩
  | error e =>
    rw [hd] at h
    cases e <;> cases h

/-- Inversion: everything that must have held for `verify_refresh_token` to
return a payload. -/
lemma verify_refresh_token_ok_inversion (cfg : SecurityConfig) (t : Token)
    (now : Int) (cl : Claims)
    (h : verify_refresh_token cfg t now = .ok cl) :
    cl = t.claims ∧ t.claims.tokenType = "refresh" ∧
      t.key = cfg.jwt_refresh_secret ∧
      ALLOWED_ALGORITHMS.contains t.alg = true ∧
      t.claims.iat ≤ now + CLOCK_SKEW_SECONDS ∧
      t.claims.nbf ≤ now + CLOCK_SKEW_SECONDS ∧
      now - CLOCK_SKEW_SECONDS ≤ t.claims.exp := by
  rw [verify_refresh_token] at h
  cases hd : jwtDecode t cfg.jwt_refresh_secret ALLOWED_ALGORITHMS now CLOCK_SKEW_SECONDS with
  | ok payload =>
    rw [hd] at h
    simp only [] at h
    split_ifs at h with hty
    cases h
    obtain ⟨hcl, halg, hkey, hiat, hnbf, hexp⟩ :=
      jwtDecode_ok_inversion _ _ _ _ _ _ hd
    subst hcl
    push_neg at hty
    exact ⟨rfl, hty, hkey, halg, hiat, hnbf, hexp⟩
  | error e =>
    rw [hd] at h
    cases e <;> cases h

/-! ## Helper lemmas about the rate limiter -/

@[simp] lemma lookupClient_nil (cid : String) : lookupClient [] cid = none := rfl

@[simp] lemma lookupClient_cons (k : String) (v : List Int)
    (rest : List (String × List Int)) (cid : String) :
    lookupClient ((k, v) :: rest) cid =
      if k = cid then some v else lookupClient rest cid := rfl

@[simp] lemma setClient_nil (cid : String) (tss : List Int) :
    setClient [] cid tss = [(cid, tss)] := rfl

@[simp] lemma setClient_cons (k : String) (v : List Int)
    (rest : List (String × List Int)) (cid : String) (tss : List Int) :
    setClient ((k, v) :: rest) cid tss =
      if k = cid then (cid, tss) :: rest else (k, v) :: setClient rest cid tss := rfl

/-- A window filter that keeps everything. -/
lemma filter_window_keep (now w : Int) (l : List Int)
    (h : ∀ ts ∈ l, now - ts < w) :
    (l.filter fun ts => now - ts < w) = l :=
  List.filter_eq_self.mpr fun a ha => by simpa using h a ha

/-- A window filter that drops everything. -/
lemma filter_window_drop (now w : Int) (l : List Int)
    (h : ∀ ts ∈ l, ¬ (now - ts < w)) :
    (l.filter fun ts => now - ts < w) = [] :=
  List.filter_eq_nil_iff.mpr fun a ha => by simpa using h a ha

/-- `_cleanup_if_needed` is the identity when the sweep is not due. -/
lemma cleanup_if_needed_not_due (rl : RateLimiter) (t : Int)
    (h : t - rl.last_cleanup ≤ 300) : _cleanup_if_needed rl t = rl := by
  rw [_cleanup_if_needed, if_neg (by omega)]

/-- Unknown-client branch of the admission body. -/
lemma is_allowed_core_none (rl : RateLimiter) (cid : String) (t : Int)
    (h : lookupClient rl.clients cid = none) :
    is_allowed_core rl cid t =
      (true, { rl with clients := setClient rl.clients cid [t] }) := by
  rw [is_allowed_core, h]

/-- Known-client branch of the admission body, before the count test. -/
lemma is_allowed_core_some (rl : RateLimiter) (cid : String) (t : Int)
    (tss : List Int) (h : lookupClient rl.clients cid = some tss) :
    is_allowed_core rl cid t =
      (if rl.max_requests ≤ (tss.filter fun ts => t - ts < rl.window_seconds).length
       then (false, { rl with
         clients := setClient rl.clients cid
           (tss.filter fun ts => t - ts < rl.window_seconds) })
       else (true, { rl with
         clients := setClient rl.clients cid
           ((tss.filter fun ts => t - ts < rl.window_seconds) ++ [t]) })) := by
  rw [is_allowed_core, h]

/-- A key that is nowhere in the map is still absent after a sweep. -/
lemma lookupClient_cleanupClients_not_mem (cutoff : Int)
    (cs : List (String × List Int)) (cid : String)
    (h : cid ∉ cs.map Prod.fst) :
    lookupClient (cleanupClients cutoff cs) cid = none := by
  induction cs with
  | nil => rfl
  | cons kv rest ih =>
    obtain ⟨k, v⟩ := kv
    simp only [List.map_cons, List.mem_cons] at h
    push_neg at h
    rw [cleanupClients]
    split_ifs with hact
    · exact ih h.2
    · rw [lookupClient_cons, if_neg (fun hk => h.1 hk.symm)]
      exact ih h.2

/-- What a sweep leaves for a tracked client: its pruned list when some
timestamp survives the cutoff, nothing otherwise.  Keys are unique, as in a
Python dict. -/
lemma lookupClient_cleanupClients (cutoff : Int)
    (cs : List (String × List Int)) (cid : String) (tss : List Int)
    (hnd : (cs.map Prod.fst).Nodup) (hmem : (cid, tss) ∈ cs) :
    lookupClient (cleanupClients cutoff cs) cid =
      if (tss.filter fun ts => cutoff < ts) = []
      then none else some (tss.filter fun ts => cutoff < ts) := by
  induction cs with
  | nil => cases hmem
  | cons kv rest ih =>
    obtain ⟨k, v⟩ := kv
    simp only [List.map_cons, List.nodup_cons] at hnd
    rcases List.mem_cons.mp hmem with heq | hrest
    · cases heq
      rw [cleanupClients]
      simp only [List.isEmpty_iff]
      by_cases hact : (tss.filter fun ts => cutoff < ts) = []
      · rw [if_pos hact, if_pos hact]
        exact lookupClient_cleanupClients_not_mem _ _ _ hnd.1
      · rw [if_neg hact, if_neg hact, lookupClient_cons, if_pos rfl]
    · have hk : k ≠ cid := by
        intro hkc
        exact hnd.1 (hkc ▸ List.mem_map_of_mem Prod.fst hrest)
      rw [cleanupClients]
      simp only [List.isEmpty_iff]
      by_cases hact : (v.filter fun ts => cutoff < ts) = []
      · rw [if_pos hact]
        exact ih hnd.2 hrest
      · rw [if_neg hact, lookupClient_cons, if_neg hk]
        exact ih hnd.2 hrest

/-- A successful dict read is a membership. -/
lemma lookupClient_mem (cs : List (String × List Int)) (cid : String)
    (tss : List Int) (h : lookupClient cs cid = some tss) : (cid, tss) ∈ cs := by
  induction cs with
  | nil => cases h
  | cons kv rest ih =>
    obtain ⟨k, v⟩ := kv
    rw [lookupClient_cons] at h
    split_ifs at h with hk
    · cases h
      subst hk
      exact List.mem_cons_self _ _
    · exact List.mem_cons_of_mem _ (ih h)

/-- Every entry after a dict write is an old entry or carries the written
value. -/
lemma mem_setClient (cs : List (String × List Int)) (cid : String)
    (tss : List Int) (c2 : String) (v2 : List Int)
    (h : (c2, v2) ∈ setClient cs cid tss) : (c2, v2) ∈ cs ∨ v2 = tss := by
  induction cs with
  | nil =>
    rw [setClient_nil] at h
    rcases List.mem_cons.mp h with heq | h2
    · cases heq
      exact Or.inr rfl
    · cases h2
  | cons kv rest ih =>
    obtain ⟨k, v⟩ := kv
    rw [setClient_cons] at h
    split_ifs at h with hk
    · rcases List.mem_cons.mp h with heq | h2
      · cases heq
        exact Or.inr rfl
      · exact Or.inl (List.mem_cons_of_mem _ h2)
    · rcases List.mem_cons.mp h with heq | h2
      · cases heq
        exact Or.inl (List.mem_cons_self _ _)
      · rcases ih h2 with h3 | h3
        · exact Or.inl (List.mem_cons_of_mem _ h3)
        · exact Or.inr h3

/-- Every entry surviving a sweep is the pruning of an entry that was
there. -/
lemma mem_cleanupClients (cutoff : Int) (cs : List (String × List Int))
    (c2 : String) (v2 : List Int) (h : (c2, v2) ∈ cleanupClients cutoff cs) :
    ∃ o, (c2, o) ∈ cs ∧ v2 = o.filter fun ts => cutoff < ts := by
  induction cs with
  | nil => cases h
  | cons kv rest ih =>
    obtain ⟨k, v⟩ := kv
    rw [cleanupClients] at h
    simp only [List.isEmpty_iff] at h
    by_cases hact : (v.filter fun ts => cutoff < ts) = []
    · rw [if_pos hact] at h
      obtain ⟨o, ho, hv⟩ := ih h
      exact ⟨o, List.mem_cons_of_mem _ ho, hv⟩
    · rw [if_neg hact] at h
      rcases List.mem_cons.mp h with heq | h2
      · cases heq
        exact ⟨v, List.mem_cons_self _ _, rfl⟩
      · obtain ⟨o, ho, hv⟩ := ih h2
        exact ⟨o, List.mem_cons_of_mem _ ho, hv⟩

/-- The sweep does not change `max_requests`. -/
lemma cleanup_if_needed_max (rl : RateLimiter) (t : Int) :
    (_cleanup_if_needed rl t).max_requests = rl.max_requests := by
  rw [_cleanup_if_needed]
  split_ifs <;> rfl

/-- The sweep preserves the per-client storage bound. -/
lemma cleanup_if_needed_invariant (rl : RateLimiter) (t : Int)
    (h : ClientInvariant rl) : ClientInvariant (_cleanup_if_needed rl t) := by
  rw [_cleanup_if_needed]
  split_ifs with hdue
  · intro cid tss hmem
    obtain ⟨o, ho, hv⟩ := mem_cleanupClients _ _ _ _ hmem
    subst hv
    exact le_trans (List.length_filter_le _ o) (h cid o ho)
  · exact h

/-- `is_allowed` does not change `max_requests`. -/
lemma is_allowed_max (rl : RateLimiter) (cid : String) (t : Int) :
    (is_allowed rl cid t).2.max_requests = rl.max_requests := by
  rw [is_allowed]
  cases hl : lookupClient (_cleanup_if_needed rl t).clients cid with
  | none =>
    rw [is_allowed_core_none _ _ _ hl]
    exact cleanup_if_needed_max rl t
  | some tss =>
    rw [is_allowed_core_some _ _ _ tss hl]
    split_ifs <;> exact cleanup_if_needed_max rl t

/-- One `is_allowed` call preserves the per-client storage bound when
`max_requests ≥ 1`. -/
lemma is_allowed_invariant (rl : RateLimiter) (cid : String) (t : Int)
    (hmax : 1 ≤ rl.max_requests) (h : ClientInvariant rl) :
    ClientInvariant (is_allowed rl cid t).2 := by
  rw [is_allowed]
  have h1 : ClientInvariant (_cleanup_if_needed rl t) :=
    cleanup_if_needed_invariant rl t h
  have hmax1 : 1 ≤ (_cleanup_if_needed rl t).max_requests := by
    rw [cleanup_if_needed_max]
    exact hmax
  cases hl : lookupClient (_cleanup_if_needed rl t).clients cid with
  | none =>
    rw [is_allowed_core_none _ _ _ hl]
    intro c2 v2 hmem
    rcases mem_setClient _ _ _ _ _ hmem with h2 | h2
    · exact h1 c2 v2 h2
    · subst h2
      simpa using hmax1
  | some tss =>
    have htss := lookupClient_mem _ _ _ hl
    rw [is_allowed_core_some _ _ _ tss hl]
    split_ifs with hlen
    · intro c2 v2 hmem
      rcases mem_setClient _ _ _ _ _ hmem with h2 | h2
      · exact h1 c2 v2 h2
      · subst h2
        exact le_trans (List.length_filter_le _ tss) (h1 cid tss htss)
    · intro c2 v2 hmem
      rcases mem_setClient _ _ _ _ _ hmem with h2 | h2
      · exact h1 c2 v2 h2
      · subst h2
        push_neg at hlen
        rw [List.length_append]
        simp only [List.length_singleton]
        omega

/-- Any sequence of calls preserves the per-client storage bound and the
configured maximum. -/
lemma runCalls_invariant (calls : List (String × Int)) (rl : RateLimiter)
    (hmax : 1 ≤ rl.max_requests) (h : ClientInvariant rl) :
    ClientInvariant (runCalls rl calls) ∧
      (runCalls rl calls).max_requests = rl.max_requests := by
  induction calls generalizing rl with
  | nil => exact ⟨h, rfl⟩
  | cons call rest ih =>
    obtain ⟨cid, t⟩ := call
    rw [runCalls]
    have h2 := is_allowed_invariant rl cid t hmax h
    have hm2 : 1 ≤ (is_allowed rl cid t).2.max_requests := by
      rw [is_allowed_max]
      exact hmax
    obtain ⟨ha, hb⟩ := ih _ hm2 h2
    exact ⟨ha, by rw [hb, is_allowed_max]⟩

/-! ## Theorems -/

/-- Claim C1.  The claim states that `_validate` raises whenever the two
signing secrets are equal (each at least 32 characters).  The code does the
opposite: the `raise` sits under `if not _constant_time_compare(a, b)`, and
`_constant_time_compare` returns `True` exactly when the secrets are equal,
so the equal-secrets branch is unreachable and `_validate` returns normally
on every configuration whose secrets are equal and otherwise in range. -/
theorem validate_accepts_equal_secrets (c : SecurityConfig)
    (hs : c.jwt_secret = c.jwt_refresh_secret)
    (hlen : 32 ≤ c.jwt_secret.length)
    (hm1 : 1 ≤ c.access_token_expire_minutes)
    (hm2 : c.access_token_expire_minutes ≤ 60)
    (hd1 : 1 ≤ c.refresh_token_expire_days)
    (hd2 : c.refresh_token_expire_days ≤ 30)
    (hb : c.max_request_body_size ≤ 1048576)
    (hr1 : 1 ≤ c.rate_limit_requests)
    (hr2 : c.rate_limit_requests ≤ 100)
    (hw1 : 1 ≤ c.rate_limit_window)
    (hw2 : c.rate_limit_window ≤ 3600) :
    _validate c = .ok () := by
  have hne1 : ¬ (c.jwt_secret.isEmpty ∨ c.jwt_secret.length < 32) := by
    rintro (h | h)
    · rw [String.isEmpty_iff] at h
      rw [h] at hlen
      simp at hlen
    · omega
  have hne2 : ¬ (c.jwt_refresh_secret.isEmpty ∨ c.jwt_refresh_secret.length < 32) := by
    rw [← hs]
    exact hne1
  have hne3 : ¬ (¬ (_constant_time_compare c.jwt_secret c.jwt_refresh_secret) = true
      ∧ (c.jwt_secret == c.jwt_refresh_secret) = true) := by
    rintro ⟨h1, _⟩
    exact h1 (by simp [_constant_time_compare, hs])
  rw [_validate, if_neg hne1, if_neg hne2, if_neg hne3,
    if_neg (by omega), if_neg (by omega), if_neg (by omega),
    if_neg (by omega), if_neg (by omega)]

/-- Witness for C1: a concrete configuration whose two secrets are the same
32-character string passes `_validate`. -/
theorem validate_accepts_equal_secrets_witness :
    _validate
      { jwt_secret := "aaaaaaaaaaaaaaaaaaaaaaaaaaaaaaaa"
        jwt_refresh_secret := "aaaaaaaaaaaaaaaaaaaaaaaaaaaaaaaa"
        access_token_expire_minutes := 15
        refresh_token_expire_days := 7
        max_request_body_size := 10240
        rate_limit_requests := 10
        rate_limit_window := 60 } = .ok () :=
  validate_accepts_equal_secrets _ rfl (by decide) (by decide) (by decide)
    (by decide) (by decide) (by decide) (by decide) (by decide) (by decide)
    (by decide)

/-- Claim C2.  For every identity id and email (and a validly configured
access TTL), verifying an access token immediately after issuing it
succeeds with `sub = str(id)` and `type = "access"`; and a token issued
with kind access is never accepted by refresh verification, at any
verification time. -/
theorem access_token_roundtrip (cfg : SecurityConfig) (user_id : Int)
    (email : String) (now : Int)
    (hm : 1 ≤ cfg.access_token_expire_minutes) :
    verify_access_token cfg (create_access_token cfg user_id email now) now =
      .ok { sub := toString user_id, email := email, tokenType := "access",
            iat := now, exp := now + 60 * cfg.access_token_expire_minutes,
            nbf := now } ∧
    (∀ now2 cl,
      verify_refresh_token cfg (create_access_token cfg user_id email now) now2 ≠ .ok cl) := by
  constructor
  · have hd : jwtDecode (create_access_token cfg user_id email now) cfg.jwt_secret
        ALLOWED_ALGORITHMS now CLOCK_SKEW_SECONDS =
        .ok (create_access_token cfg user_id email now).claims :=
      jwtDecode_ok _ _ _ _ _ (by simp [create_access_token, ALGORITHM, ALLOWED_ALGORITHMS]) rfl
        (by show now ≤ now + 10; omega)
        (by show now ≤ now + 10; omega)
        (by show now - 10 ≤ now + 60 * cfg.access_token_expire_minutes; omega)
    rw [verify_access_token, hd]
    simp [create_access_token]
  · intro now2 cl h
    have hty := (verify_refresh_token_ok_inversion _ _ _ _ h).2.1
    simp [create_access_token] at hty

/-- Witness for C2 at a concrete configuration, identity and time: the
fresh access token round-trips through access verification and is rejected
by refresh verification. -/
theorem access_token_roundtrip_witness :
    verify_access_token cfgA (create_access_token cfgA 1 "user@x.com" 1000) 1000 =
      .ok { sub := toString (1 : Int), email := "user@x.com",
            tokenType := "access", iat := 1000,
            exp := 1000 + 60 * cfgA.access_token_expire_minutes, nbf := 1000 } ∧
    verify_refresh_token cfgA (create_access_token cfgA 1 "user@x.com" 1000) 2000 ≠
      .ok (create_access_token cfgA 1 "user@x.com" 1000).claims :=
  ⟨(access_token_roundtrip cfgA 1 "user@x.com" 1000 (by decide)).1,
   (access_token_roundtrip cfgA 1 "user@x.com" 1000 (by decide)).2 2000 _⟩

/-- Claim C7.  Time-claim checks allow a 10-second leeway in both
directions: verification strictly after `exp + 10` fails; an `iat` or `nbf`
more than 10 seconds in the verifier's future fails; and a token whose time
claims are within the tolerance, correctly signed and of the right type, is
accepted. -/
theorem clock_skew_tolerance (cfg : SecurityConfig) (t : Token) (now : Int) :
    (t.claims.exp + 10 < now → ∀ cl, verify_access_token cfg t now ≠ .ok cl) ∧
    (now + 10 < t.claims.iat → ∀ cl, verify_access_token cfg t now ≠ .ok cl) ∧
    (now + 10 < t.claims.nbf → ∀ cl, verify_access_token cfg t now ≠ .ok cl) ∧
    (t.key = cfg.jwt_secret → t.alg = "HS256" → t.claims.tokenType = "access" →
      t.claims.iat ≤ now + 10 → t.claims.nbf ≤ now + 10 → now - 10 ≤ t.claims.exp →
      verify_access_token cfg t now = .ok t.claims) := by
  refine ⟨?_, ?_, ?_, ?_⟩
  · intro hexp cl h
    have := (verify_access_token_ok_inversion _ _ _ _ h).2.2.2.2.2.2
    rw [CLOCK_SKEW_SECONDS] at this
    omega
  · intro hiat cl h
    have := (verify_access_token_ok_inversion _ _ _ _ h).2.2.2.2.1
    rw [CLOCK_SKEW_SECONDS] at this
    omega
  · intro hnbf cl h
    have := (verify_access_token_ok_inversion _ _ _ _ h).2.2.2.2.2.1
    rw [CLOCK_SKEW_SECONDS] at this
    omega
  · intro hkey halg hty hiat hnbf hexp
    have hd : jwtDecode t cfg.jwt_secret ALLOWED_ALGORITHMS now CLOCK_SKEW_SECONDS =
        .ok t.claims :=
      jwtDecode_ok _ _ _ _ _ (by simp [ALLOWED_ALGORITHMS, halg]) hkey hiat hnbf hexp
    rw [verify_access_token, hd]
    simp [hty]

/-- Witness for C7: a concrete expired token, a concrete future-dated token
and a concrete in-tolerance token, each checked at time 1000. -/
theorem clock_skew_tolerance_witness :
    verify_access_token cfgA
      { claims := { sub := "1", email := "user@x.com", tokenType := "access",
                    iat := 0, exp := 989, nbf := 0 },
        key := cfgA.jwt_secret, alg := "HS256" } 1000 ≠
      .ok { sub := "1", email := "user@x.com", tokenType := "access",
            iat := 0, exp := 989, nbf := 0 } ∧
    verify_access_token cfgA
      { claims := { sub := "1", email := "user@x.com", tokenType := "access",
                    iat := 1011, exp := 2000, nbf := 1011 },
        key := cfgA.jwt_secret, alg := "HS256" } 1000 ≠
      .ok { sub := "1", email := "user@x.com", tokenType := "access",
            iat := 1011, exp := 2000, nbf := 1011 } ∧
    verify_access_token cfgA
      { claims := { sub := "1", email := "user@x.com", tokenType := "access",
                    iat := 1005, exp := 995, nbf := 1005 },
        key := cfgA.jwt_secret, alg := "HS256" } 1000 =
      .ok { sub := "1", email := "user@x.com", tokenType := "access",
            iat := 1005, exp := 995, nbf := 1005 } :=
  ⟨(clock_skew_tolerance cfgA _ 1000).1 (by decide) _,
   (clock_skew_tolerance cfgA _ 1000).2.1 (by decide) _,
   (clock_skew_tolerance cfgA _ 1000).2.2.2 rfl rfl rfl (by decide) (by decide)
     (by decide)⟩

/-- Claim C5.  Sliding-window behaviour with `max_requests = 3`,
`window_seconds = 60`: from a limiter constructed at `t0`, three calls for
client `c` within one window are all admitted, a fourth inside the same
window is rejected and records no timestamp (the stored entry for `c` is
unchanged), and a call after the window has fully elapsed since every
recorded timestamp is admitted again.  The time hypotheses say the calls
are ordered, the first four lie in a common window, the fifth is a full
window after the last recorded timestamp, and no 300-second sweep
intervenes. -/
theorem rate_limiter_sliding_window (t0 t1 t2 t3 t4 t5 : Int) (c : String)
    (h12 : t1 ≤ t2) (h23 : t2 ≤ t3) (h34 : t3 ≤ t4)
    (hwin : t4 - t1 < 60) (helapsed : t3 + 60 ≤ t5)
    (hnosweep : t5 - t0 ≤ 300) :
    (is_allowed (mkRateLimiter 3 60 t0) c t1).1 = true ∧
    (is_allowed (is_allowed (mkRateLimiter 3 60 t0) c t1).2 c t2).1 = true ∧
    (is_allowed (is_allowed (is_allowed (mkRateLimiter 3 60 t0) c t1).2
      c t2).2 c t3).1 = true ∧
    (is_allowed (is_allowed (is_allowed (is_allowed (mkRateLimiter 3 60 t0)
      c t1).2 c t2).2 c t3).2 c t4).1 = false ∧
    lookupClient (is_allowed (is_allowed (is_allowed (is_allowed
      (mkRateLimiter 3 60 t0) c t1).2 c t2).2 c t3).2 c t4).2.clients c =
      lookupClient (is_allowed (is_allowed (is_allowed (mkRateLimiter 3 60 t0)
        c t1).2 c t2).2 c t3).2.clients c ∧
    (is_allowed (is_allowed (is_allowed (is_allowed (is_allowed
      (mkRateLimiter 3 60 t0) c t1).2 c t2).2 c t3).2 c t4).2 c t5).1 = true := by
  have e1 : is_allowed (mkRateLimiter 3 60 t0) c t1 =
      (true, ⟨3, 60, [(c, [t1])], t0⟩) := by
    rw [is_allowed, cleanup_if_needed_not_due _ _ (by simp [mkRateLimiter]; omega),
      is_allowed_core_none _ _ _ (by simp [mkRateLimiter])]
    rfl
  have e2 : is_allowed (⟨3, 60, [(c, [t1])], t0⟩ : RateLimiter) c t2 =
      (true, ⟨3, 60, [(c, [t1, t2])], t0⟩) := by
    rw [is_allowed, cleanup_if_needed_not_due _ _ (by simp; omega),
      is_allowed_core_some _ _ _ [t1] (by simp)]
    rw [show ((⟨3, 60, [(c, [t1])], t0⟩ : RateLimiter)).window_seconds = 60 from rfl,
      filter_window_keep t2 60 [t1] (by intro ts hts; simp at hts; omega)]
    rw [if_neg (by simp)]
    simp
  have e3 : is_allowed (⟨3, 60, [(c, [t1, t2])], t0⟩ : RateLimiter) c t3 =
      (true, ⟨3, 60, [(c, [t1, t2, t3])], t0⟩) := by
    rw [is_allowed, cleanup_if_needed_not_due _ _ (by simp; omega),
      is_allowed_core_some _ _ _ [t1, t2] (by simp)]
    rw [show ((⟨3, 60, [(c, [t1, t2])], t0⟩ : RateLimiter)).window_seconds = 60 from rfl,
      filter_window_keep t3 60 [t1, t2]
        (by intro ts hts; simp at hts; rcases hts with h | h <;> omega)]
    rw [if_neg (by simp)]
    simp
  have e4 : is_allowed (⟨3, 60, [(c, [t1, t2, t3])], t0⟩ : RateLimiter) c t4 =
      (false, ⟨3, 60, [(c, [t1, t2, t3])], t0⟩) := by
    rw [is_allowed, cleanup_if_needed_not_due _ _ (by simp; omega),
      is_allowed_core_some _ _ _ [t1, t2, t3] (by simp)]
    rw [show ((⟨3, 60, [(c, [t1, t2, t3])], t0⟩ : RateLimiter)).window_seconds = 60 from rfl,
      filter_window_keep t4 60 [t1, t2, t3]
        (by intro ts hts; simp at hts; rcases hts with h | h | h <;> omega)]
    rw [if_pos (by simp)]
    simp
  have e5 : is_allowed (⟨3, 60, [(c, [t1, t2, t3])], t0⟩ : RateLimiter) c t5 =
      (true, ⟨3, 60, [(c, [t5])], t0⟩) := by
    rw [is_allowed, cleanup_if_needed_not_due _ _ (by simp; omega),
      is_allowed_core_some _ _ _ [t1, t2, t3] (by simp)]
    rw [show ((⟨3, 60, [(c, [t1, t2, t3])], t0⟩ : RateLimiter)).window_seconds = 60 from rfl,
      filter_window_drop t5 60 [t1, t2, t3]
        (by intro ts hts; simp at hts; rcases hts with h | h | h <;> omega)]
    rw [if_neg (by simp)]
    simp
  rw [e1]
  dsimp only
  rw [e2]
  dsimp only
  rw [e3]
  dsimp only
  rw [e4, e5]
  exact ⟨rfl, rfl, rfl, rfl, rfl, rfl⟩

/-- Witness for C5: construction at time 0, admitted calls at 0, 10, 20,
a rejected call at 30 and a readmitted call at 90. -/
theorem rate_limiter_sliding_window_witness :
    (is_allowed (mkRateLimiter 3 60 0) "client" 0).1 = true ∧
    (is_allowed (is_allowed (mkRateLimiter 3 60 0) "client" 0).2 "client" 10).1 = true ∧
    (is_allowed (is_allowed (is_allowed (mkRateLimiter 3 60 0) "client" 0).2
      "client" 10).2 "client" 20).1 = true ∧
    (is_allowed (is_allowed (is_allowed (is_allowed (mkRateLimiter 3 60 0)
      "client" 0).2 "client" 10).2 "client" 20).2 "client" 30).1 = false ∧
    lookupClient (is_allowed (is_allowed (is_allowed (is_allowed
      (mkRateLimiter 3 60 0) "client" 0).2 "client" 10).2 "client" 20).2
      "client" 30).2.clients "client" =
      lookupClient (is_allowed (is_allowed (is_allowed (mkRateLimiter 3 60 0)
        "client" 0).2 "client" 10).2 "client" 20).2.clients "client" ∧
    (is_allowed (is_allowed (is_allowed (is_allowed (is_allowed
      (mkRateLimiter 3 60 0) "client" 0).2 "client" 10).2 "client" 20).2
      "client" 30).2 "client" 90).1 = true :=
  rate_limiter_sliding_window 0 0 10 20 30 90 "client" (by decide) (by decide)
    (by decide) (by decide) (by decide) (by decide)

/-- Claim C6.  The sweep is a no-op unless more than 300 seconds have
elapsed since the last sweep; when it runs, a tracked client keeping some
timestamp inside the window (within `window_seconds` of `now`) survives
with exactly its in-window timestamps, and a tracked client with no
in-window timestamp is removed.  Keys are unique as in a Python dict. -/
theorem cleanup_sweep_spec (rl : RateLimiter) (now : Int)
    (hnd : (rl.clients.map Prod.fst).Nodup) :
    (now - rl.last_cleanup ≤ 300 → _cleanup_if_needed rl now = rl) ∧
    (300 < now - rl.last_cleanup →
      ∀ cid tss, (cid, tss) ∈ rl.clients →
        ((∃ ts ∈ tss, now - ts < rl.window_seconds) →
          lookupClient (_cleanup_if_needed rl now).clients cid =
            some (tss.filter fun ts => now - rl.window_seconds < ts)) ∧
        ((∀ ts ∈ tss, ¬ (now - ts < rl.window_seconds)) →
          lookupClient (_cleanup_if_needed rl now).clients cid = none)) := by
  constructor
  · exact cleanup_if_needed_not_due rl now
  · intro hdue cid tss hmem
    have hcl : _cleanup_if_needed rl now =
        { rl with
          clients := cleanupClients (now - rl.window_seconds) rl.clients
          last_cleanup := now } := by
      rw [_cleanup_if_needed, if_pos (by omega)]
    constructor
    · intro hex
      obtain ⟨ts, hts, hlt⟩ := hex
      have hne : (tss.filter fun t => now - rl.window_seconds < t) ≠ [] := by
        intro hnil
        have : ts ∈ tss.filter fun t => now - rl.window_seconds < t :=
          List.mem_filter.mpr ⟨hts, by simpa using (by omega : now - rl.window_seconds < ts)⟩
        rw [hnil] at this
        cases this
      rw [hcl]
      rw [lookupClient_cleanupClients (now - rl.window_seconds) rl.clients cid tss hnd hmem,
        if_neg hne]
    · intro hall
      have hnil : (tss.filter fun t => now - rl.window_seconds < t) = [] :=
        List.filter_eq_nil_iff.mpr fun a ha => by
          simpa using (by have := hall a ha; omega : ¬ now - rl.window_seconds < a)
      rw [hcl]
      rw [lookupClient_cleanupClients (now - rl.window_seconds) rl.clients cid tss hnd hmem,
        if_pos hnil]

/-- Witness for C6: constructed at time 0 with clients "a" (one stale
timestamp) and "b" (one live, one stale).  A call at time 200 does not
sweep; a sweep at time 560 removes "a" and keeps exactly the live
timestamp of "b". -/
theorem cleanup_sweep_spec_witness :
    _cleanup_if_needed ⟨3, 60, [("a", [10]), ("b", [550, 10])], 0⟩ 200 =
      ⟨3, 60, [("a", [10]), ("b", [550, 10])], 0⟩ ∧
    lookupClient
      (_cleanup_if_needed ⟨3, 60, [("a", [10]), ("b", [550, 10])], 0⟩ 560).clients "a" = none ∧
    lookupClient
      (_cleanup_if_needed ⟨3, 60, [("a", [10]), ("b", [550, 10])], 0⟩ 560).clients "b" =
      some ([550, 10].filter fun ts => (560 : Int) - 60 < ts) :=
  ⟨(cleanup_sweep_spec ⟨3, 60, [("a", [10]), ("b", [550, 10])], 0⟩ 200
      (by decide)).1 (by decide),
   ((cleanup_sweep_spec ⟨3, 60, [("a", [10]), ("b", [550, 10])], 0⟩ 560
      (by decide)).2 (by decide) "a" [10] (by decide)).2 (by decide),
   ((cleanup_sweep_spec ⟨3, 60, [("a", [10]), ("b", [550, 10])], 0⟩ 560
      (by decide)).2 (by decide) "b" [550, 10] (by decide)).1 (by decide)⟩

/-- Claim C10.  Starting from a freshly constructed limiter with
`max_requests ≥ 1` (the configured range is 1..100), after any sequence of
`is_allowed` calls — each of which runs the opportunistic sweep — no
client's stored timestamp list is longer than `max_requests`. -/
theorem rate_limiter_count_bound (maxRequests : Nat) (window t0 : Int)
    (calls : List (String × Int)) (hmax : 1 ≤ maxRequests)
    (cid : String) (tss : List Int)
    (hmem : (cid, tss) ∈ (runCalls (mkRateLimiter maxRequests window t0) calls).clients) :
    tss.length ≤ maxRequests := by
  obtain ⟨hinv, hm⟩ := runCalls_invariant calls (mkRateLimiter maxRequests window t0)
    hmax (fun c v hv => by cases hv)
  have h := hinv cid tss hmem
  rw [hm] at h
  exact h

/-- Witness for C10: after one call the client stores one timestamp, within
the bound 3. -/
theorem rate_limiter_count_bound_witness :
    (("a", [(1 : Int)]) ∈ (runCalls (mkRateLimiter 3 60 0) [("a", 1)]).clients) ∧
      ([(1 : Int)] : List Int).length ≤ 3 :=
  ⟨by decide,
   rate_limiter_count_bound 3 60 0 [("a", 1)] (by decide) "a" [1] (by decide)⟩

/-- Counterexample to C3 as stated: two tokens failing access verification
for different internal reasons — one expired (signed with the right key),
one with a bad signature — produce 401 responses whose messages differ
("Token expired" vs "Invalid token"). -/
theorem verify_failure_details_differ :
    verify_access_token cfgA
      { claims := { sub := "1", email := "user@x.com", tokenType := "access",
                    iat := 0, exp := 0, nbf := 0 },
        key := cfgA.jwt_secret, alg := "HS256" } 1000 =
      .error ⟨401, "Token expired"⟩ ∧
    verify_access_token cfgA
      { claims := { sub := "1", email := "user@x.com", tokenType := "access",
                    iat := 0, exp := 0, nbf := 0 },
        key := "some-other-key-0123456789abcdefgh", alg := "HS256" } 1000 =
      .error ⟨401, "Invalid token"⟩ ∧
    (⟨401, "Token expired"⟩ : HttpError) ≠ ⟨401, "Invalid token"⟩ :=
  ⟨rfl, rfl, by decide⟩

/-- Claim C3, amended.  Every verification failure (access or refresh)
carries status code 401, but the detail message is one of three fixed
strings — "Token expired", "Invalid token" or "Authentication failed" —
depending on the internal reason, so expired and malformed tokens are
distinguishable by message although the status code is uniform. -/
theorem verify_failure_always_401 (cfg : SecurityConfig) (t : Token)
    (now : Int) (e : HttpError)
    (h : verify_access_token cfg t now = .error e ∨
      verify_refresh_token cfg t now = .error e) :
    e.status_code = 401 ∧
      (e.detail = "Token expired" ∨ e.detail = "Invalid token" ∨
        e.detail = "Authentication failed") := by
  rcases h with h | h
  · rw [verify_access_token] at h
    cases hd : jwtDecode t cfg.jwt_secret ALLOWED_ALGORITHMS now CLOCK_SKEW_SECONDS with
    | ok p =>
      rw [hd] at h
      simp only [] at h
      split_ifs at h with hty
      cases h
      exact ⟨rfl, Or.inr (Or.inr rfl)⟩
    | error er =>
      rw [hd] at h
      cases er
      · cases h
        exact ⟨rfl, Or.inl rfl⟩
      · cases h
        exact ⟨rfl, Or.inr (Or.inl rfl)⟩
  · rw [verify_refresh_token] at h
    cases hd : jwtDecode t cfg.jwt_refresh_secret ALLOWED_ALGORITHMS now CLOCK_SKEW_SECONDS with
    | ok p =>
      rw [hd] at h
      simp only [] at h
      split_ifs at h with hty
      cases h
      exact ⟨rfl, Or.inr (Or.inr rfl)⟩
    | error er =>
      rw [hd] at h
      cases er
      · cases h
        exact ⟨rfl, Or.inl rfl⟩
      · cases h
        exact ⟨rfl, Or.inr (Or.inl rfl)⟩

/-- Witness for the amended C3 at a concrete expired token. -/
theorem verify_failure_always_401_witness :
    (⟨401, "Token expired"⟩ : HttpError).status_code = 401 ∧
      ((⟨401, "Token expired"⟩ : HttpError).detail = "Token expired" ∨
        (⟨401, "Token expired"⟩ : HttpError).detail = "Invalid token" ∨
        (⟨401, "Token expired"⟩ : HttpError).detail = "Authentication failed") :=
  verify_failure_always_401 cfgA
    { claims := { sub := "1", email := "user@x.com", tokenType := "access",
                  iat := 0, exp := 0, nbf := 0 },
      key := cfgA.jwt_secret, alg := "HS256" } 1000 ⟨401, "Token expired"⟩
    (Or.inl rfl)

/-- Counterexample to C4 as stated: on a malformed stored hash (the empty
string is not a bcrypt hash) `verify_password` propagates bcrypt's
`ValueError("Invalid salt")` instead of returning false. -/
theorem verify_password_raises_on_malformed_hash :
    verify_password (fun _ _ => false) "Str0ngPassw!rd" "" =
      .error "Invalid salt" := rfl

/-- Claim C4, amended.  For a well-formed stored bcrypt hash,
`verify_password` returns the boolean comparison outcome (false on any
mismatch) and never raises; for a malformed stored hash it raises
(propagates `ValueError("Invalid salt")` from bcrypt) rather than
returning false. -/
theorem verify_password_spec (matchesPw : String → String → Bool)
    (password hashed : String) :
    (isWellFormedBcryptHash hashed = true →
      verify_password matchesPw password hashed = .ok (matchesPw password hashed)) ∧
    (isWellFormedBcryptHash hashed = false →
      verify_password matchesPw password hashed = .error "Invalid salt") := by
  constructor
  · intro h
    rw [verify_password, bcrypt_checkpw, if_pos h]
  · intro h
    rw [verify_password, bcrypt_checkpw, if_neg (by simp [h])]

/-- Witness for the amended C4: a mismatching password against a
well-formed 60-character hash yields `false`, and against the malformed
empty hash raises. -/
theorem verify_password_spec_witness :
    verify_password (fun _ _ => false) "Str0ngPassw!rd"
      "$2b$12$abcdefghijklmnopqrstuvwxyzABCDEFGHIJKLMNOPQRSTUVWXYZa" =
      .ok false ∧
    verify_password (fun _ _ => false) "Str0ngPassw!rd" "" =
      .error "Invalid salt" :=
  ⟨(verify_password_spec (fun _ _ => false) "Str0ngPassw!rd"
      "$2b$12$abcdefghijklmnopqrstuvwxyzABCDEFGHIJKLMNOPQRSTUVWXYZa").1 (by decide),
   (verify_password_spec (fun _ _ => false) "Str0ngPassw!rd" "").2 (by decide)⟩

/-- Claim C8 evaluated at a failing input.  `register` commits the new user
before issuing tokens; when a post-commit step throws, the handler's
`db.rollback()` cannot undo the committed insert, so the 500 is surfaced
while the identity with the submitted email remains stored — contradicting
the claim that no such identity remains. -/
theorem register_keeps_user_after_rollback :
    register (fun _ => "h") cfgA ⟨[], []⟩ "user@x.com" "Abcdef1!gh23" 1 1000 true =
      (.error ⟨500, "Registration failed"⟩, ⟨[⟨1, "user@x.com", "h"⟩], []⟩) ∧
    findByEmail
      (register (fun _ => "h") cfgA ⟨[], []⟩ "user@x.com" "Abcdef1!gh23" 1 1000 true).2.committed
      "user@x.com" = some ⟨1, "user@x.com", "h"⟩ :=
  ⟨rfl, rfl⟩

/-- Claim C9.  A login for an email matching no stored identity and a login
for an existing email whose password fails verification produce literally
the same response: a 401 with detail "Invalid credentials". -/
theorem login_failure_indistinguishable (matchesPw : String → String → Bool)
    (cfg : SecurityConfig) (users : List UserRow) (e1 pw1 e2 pw2 : String)
    (now1 now2 : Int) (u : UserRow)
    (h1 : findByEmail users e1 = none)
    (h2 : findByEmail users e2 = some u)
    (h3 : bcrypt_checkpw matchesPw pw2 u.hashed_password = .ok false) :
    login matchesPw cfg users e1 pw1 now1 = .error ⟨401, "Invalid credentials"⟩ ∧
    login matchesPw cfg users e2 pw2 now2 = .error ⟨401, "Invalid credentials"⟩ ∧
    login matchesPw cfg users e1 pw1 now1 = login matchesPw cfg users e2 pw2 now2 := by
  have ha : login matchesPw cfg users e1 pw1 now1 = .error ⟨401, "Invalid credentials"⟩ := by
    rw [login, h1]
  have hb : login matchesPw cfg users e2 pw2 now2 = .error ⟨401, "Invalid credentials"⟩ := by
    rw [login, h2]
    simp only []
    rw [h3]
    simp only []
    rw [if_pos (by simp)]
  exact ⟨ha, hb, ha.trans hb.symm⟩

/-- Witness for C9: one stored user; a login with an unknown email and a
login with the stored email but a rejected password. -/
theorem login_failure_indistinguishable_witness :
    login (fun _ _ => false) cfgA
      [⟨1, "alice@x.com", "$2b$12$abcdefghijklmnopqrstuvwxyzABCDEFGHIJKLMNOPQRSTUVWXYZa"⟩]
      "bob@x.com" "Whatever1!xy" 1000 = .error ⟨401, "Invalid credentials"⟩ ∧
    login (fun _ _ => false) cfgA
      [⟨1, "alice@x.com", "$2b$12$abcdefghijklmnopqrstuvwxyzABCDEFGHIJKLMNOPQRSTUVWXYZa"⟩]
      "alice@x.com" "WrongPass1!z" 1000 = .error ⟨401, "Invalid credentials"⟩ ∧
    login (fun _ _ => false) cfgA
      [⟨1, "alice@x.com", "$2b$12$abcdefghijklmnopqrstuvwxyzABCDEFGHIJKLMNOPQRSTUVWXYZa"⟩]
      "bob@x.com" "Whatever1!xy" 1000 =
    login (fun _ _ => false) cfgA
      [⟨1, "alice@x.com", "$2b$12$abcdefghijklmnopqrstuvwxyzABCDEFGHIJKLMNOPQRSTUVWXYZa"⟩]
      "alice@x.com" "WrongPass1!z" 1000 :=
  login_failure_indistinguishable (fun _ _ => false) cfgA
    [⟨1, "alice@x.com", "$2b$12$abcdefghijklmnopqrstuvwxyzABCDEFGHIJKLMNOPQRSTUVWXYZa"⟩]
    "bob@x.com" "Whatever1!xy" "alice@x.com" "WrongPass1!z" 1000 1000
    ⟨1, "alice@x.com", "$2b$12$abcdefghijklmnopqrstuvwxyzABCDEFGHIJKLMNOPQRSTUVWXYZa"⟩
    rfl rfl rfl

end FastapiJwtAuth
